import Mathlib

/-!
Verification of the token-lifecycle subsystem of ms-graph-devtools,
a shallow embedding of src/core/auth.ts (class AzureAuth).

Conventions of the embedding:
- JavaScript numbers that can become NaN are modelled by JsNum (an integer or nan);
  undefined numeric fields are modelled by Option JsNum with none for undefined/null.
- Strings that can be assigned undefined are modelled by Option String; the initial
  empty string is some "".  JS truthiness is made explicit (strTruthy, jsNumTruthy).
- Thrown values are JsError: an AxonError (with HTTP status and the resolved
  responseData message, i.e. data.message or data.error.message), a plain Error, or
  a non-Error value.  Fallible methods return Except JsError.
- Long user-facing message texts are abridged to their first line; only message
  identity across code paths matters for the verified claims.
- The filesystem is an association list from file name (relative to the fixed
  storage base directory) to parsed stored-credential content; a malformed or
  missing file is an absent entry (loadFromStorage treats both as load failure).
- Side-effect order is recorded in an event trace (Ev).
- Methods are modelled sequentially (one caller at a time; the promise fields
  storageLoadPromise / tokenRefreshPromise are null at entry and at exit of a
  solitary call).  The concurrent interleaving of ensureRefreshToken, which the
  promise fields exist for, is modelled separately and faithfully in namespace Race.
-/

namespace MsGraph

/-- A JavaScript number: an integer timestamp/duration or NaN. -/
inductive JsNum where
  | num (n : Int)
  | nan
deriving DecidableEq

/-- JS truthiness of a possibly-undefined number: undefined, NaN and 0 are falsy. -/
def jsNumTruthy : Option JsNum → Bool
  | none => false
  | some JsNum.nan => false
  | some (JsNum.num n) => n != 0

/-- JS truthiness of a possibly-undefined string: undefined and "" are falsy. -/
def strTruthy : Option String → Bool
  | none => false
  | some s => s != ""

/-- JS truthiness of a possibly-undefined integer (expires_in): undefined and 0 are falsy. -/
def intTruthy : Option Int → Bool
  | none => false
  | some n => n != 0

/-- A thrown JS value: an AxonError carrying the HTTP status and the resolved
responseData message (data.message or data.error.message), a plain Error, or a
thrown non-Error value. -/
inductive JsError where
  | axon (status : Option Nat) (dataMsg : Option String)
  | err (msg : String)
  | other (repr : String)
deriving DecidableEq

deriving instance DecidableEq for Except

/-- The withRetry guard test: error instanceof AxonError and error.status === 401. -/
def is401 : JsError → Bool
  | JsError.axon (some 401) _ => true
  | _ => false

def authFailedMsg : String :=
  "Authentication failed. Please check your credentials or re-authenticate."

def notFoundMsg (d : Option String) : String :=
  "Resource not found: " ++ d.getD "The requested item does not exist"

def conflictMsg (d : Option String) : String :=
  "Conflict: " ++ d.getD "An item with this name already exists"

def permissionMsg (d : Option String) : String :=
  "Permission denied: " ++ d.getD "You do not have access to this resource"

def serverErrorMsg (n : Nat) (d : Option String) : String :=
  "Microsoft server error (" ++ toString n ++ "): " ++ d.getD "Please try again later"

def unknownErrorMsg (v : String) : String := "Unknown error: " ++ v

def cannotRecoverMsg : String :=
  "Authentication failed and no token provider configured. Cannot recover from 401 error."

def failedRefreshMsg : String := "Failed to refresh access token"

def failedForgeMsg : String := "Failed to forge refresh token"

def providerNotConfiguredMsg : String := "No token provider configured."

def accessTokenOnlyMsg : String := "Access token is invalid or expired."

/-- Truthiness of error.status (undefined or 0 is falsy). -/
def statusTruthy : Option Nat → Bool
  | none => false
  | some n => n != 0

/-- The status && status >= 500 test of enhanceError. -/
def statusGe500 : Option Nat → Bool
  | none => false
  | some n => decide (500 ≤ n)

/-- AzureAuth.enhanceError: map an AxonError with a known status (the if chain
tests 401, 404, 409, 403, then truthy status at least 500) to a friendlier
Error; any other Error (including an AxonError with another status) is returned
as is; a thrown non-Error value is wrapped. -/
def enhanceError : JsError → JsError
  | JsError.axon st d =>
    if st == some 401 then JsError.err authFailedMsg
    else if st == some 404 then JsError.err (notFoundMsg d)
    else if st == some 409 then JsError.err (conflictMsg d)
    else if st == some 403 then JsError.err (permissionMsg d)
    else if statusTruthy st && statusGe500 st then JsError.err (serverErrorMsg (st.getD 0) d)
    else JsError.axon st d
  | JsError.err m => JsError.err m
  | JsError.other v => JsError.err (unknownErrorMsg v)

/-- A 200 token-endpoint response body: access_token, optional expires_in (seconds),
optional refresh_token. -/
structure TokenResponse where
  access_token : String
  expires_in : Option Int
  refresh_token : Option String
deriving DecidableEq

/-- The parsed content of a stored credential file (interface StoredCredentials).
It has no clientSecret field. -/
structure StoredCredentials where
  refreshToken : Option String
  accessToken : String
  expiresAt : Option JsNum
  clientId : String
  tenantId : String
deriving DecidableEq

/-- The mutable fields of an AzureAuth instance that the verified claims touch.
tokenProvider is modelled by a configured/absent flag (its outcome lives in Env);
scopes and allowInsecure are omitted as no claim mentions them. -/
structure AuthState where
  expiredAt : Option JsNum
  refreshToken : Option String
  accessToken : String
  tokenProvider : Bool
  storagePath : String
  clientId : String
  clientSecret : String
  tenantId : String
  isAccessTokenOnly : Bool
  isRetrying : Bool
deriving DecidableEq

/-- The external world for one run: the clock, the refresh-grant outcome (none
models a network failure or a non-200 status), the provider callback outcome, and
the authorization-code-grant outcome. -/
structure Env where
  now : Int
  refreshResp : Option TokenResponse
  providerCode : Except JsError String
  forgeResp : Option TokenResponse

/-- Recorded side effects, in program order. -/
inductive Ev where
  | storageLoad
  | storageSave
  | providerInvoked
  | forgeExchange
  | refreshExchange
deriving DecidableEq

/-- The storage directory content: file name (inside the fixed base directory)
to parsed content. -/
def FS : Type := List (String × StoredCredentials)

def fsGet (fs : FS) (p : String) : Option StoredCredentials :=
  (fs.find? (fun kv => kv.1 == p)).map (fun kv => kv.2)

def fsWrite (fs : FS) (p : String) (c : StoredCredentials) : FS :=
  (p, c) :: fs.filter (fun kv => kv.1 != p)

/-- AzureAuth.getDefaultStoragePath, relative to the base directory: a
tenant+client scoped file name when both are known, the legacy name otherwise. -/
def getDefaultStoragePath (s : AuthState) : String :=
  if s.tenantId != "" && s.clientId != "" then
    "tokens." ++ s.tenantId ++ "." ++ s.clientId ++ ".json"
  else
    "tokens.json"

/-- AzureAuth.updateStoragePath. -/
def updateStoragePath (s : AuthState) : AuthState :=
  { s with storagePath := getDefaultStoragePath s }

/-- The credentials object built by AzureAuth.saveToStorage (no clientSecret). -/
def credentialsOf (s : AuthState) : StoredCredentials :=
  { refreshToken := s.refreshToken
    accessToken := s.accessToken
    expiresAt := s.expiredAt
    clientId := s.clientId
    tenantId := s.tenantId }

/-- The key list of JSON.stringify applied to the credentials object: a key whose
value is undefined is omitted (refreshToken or expiresAt could only be undefined);
NaN serializes to null, so an expiresAt of NaN keeps its key. -/
def storedJsonKeys (c : StoredCredentials) : List String :=
  (if c.refreshToken.isSome then ["refreshToken"] else [])
    ++ ["accessToken"]
    ++ (if c.expiresAt.isSome then ["expiresAt"] else [])
    ++ ["clientId", "tenantId"]

/-- JSON round trip of the expiresAt value: a NaN expiry is written as null and
read back as an absent number; integers survive unchanged. -/
def serializeExpiresAt : Option JsNum → Option JsNum
  | some JsNum.nan => none
  | v => v

/-- AzureAuth.saveToStorage: skipped in access-token-only mode or without a truthy
refresh token; otherwise writes the credentials object (serialized) to storagePath.
I/O errors are swallowed, so the model is total. -/
def saveToStorage (s : AuthState) (fs : FS) : FS × List Ev :=
  if s.isAccessTokenOnly then (fs, [])
  else if !(strTruthy s.refreshToken) then (fs, [])
  else
    (fsWrite fs s.storagePath
      { credentialsOf s with expiresAt := serializeExpiresAt s.expiredAt },
     [Ev.storageSave])

/-- AzureAuth.loadFromStorage: read and parse storagePath; on success assign all
five stored fields and refresh the storage path, returning true; a missing or
malformed file returns false and leaves the state alone. -/
def loadFromStorage (s : AuthState) (fs : FS) : Bool × AuthState × List Ev :=
  match fsGet fs s.storagePath with
  | some c =>
      (true,
       updateStoragePath
         { s with refreshToken := c.refreshToken
                  accessToken := c.accessToken
                  expiredAt := c.expiresAt
                  clientId := c.clientId
                  tenantId := c.tenantId },
       [Ev.storageLoad])
  | none => (false, s, [Ev.storageLoad])

/-- The Missing required credentials message, listing exactly the absent fields
(remediation tail abridged). -/
def missingCredsMsg (s : AuthState) : String :=
  "Missing required credentials. Please provide:\n"
    ++ (if s.clientId == "" then "  - clientId\n" else "")
    ++ (if s.clientSecret == "" then "  - clientSecret\n" else "")
    ++ (if s.tenantId == "" then "  - tenantId\n" else "")

/-- The No refresh token available message; it names the resolved storage path
(remediation list abridged). -/
def noRefreshTokenMsg (storagePath : String) : String :=
  "No refresh token available. Please provide one via refreshToken, the saved storage file at "
    ++ storagePath ++ ", or a tokenProvider function."

/-- AzureAuth.ensureCredentials: update the storage path, then require clientId,
clientSecret and tenantId. -/
def ensureCredentials (s : AuthState) : Except JsError AuthState :=
  let s1 := updateStoragePath s
  if s1.clientId != "" && s1.clientSecret != "" && s1.tenantId != "" then
    Except.ok s1
  else
    Except.error (JsError.err (missingCredsMsg s1))

/-- AzureAuth.forgeRefreshToken: require a provider, obtain an authorization code
from it, exchange the code at the token endpoint; on a 200 response assign
access token, expiry and refresh token unconditionally (an absent expires_in makes
the expiry Date.now() + undefined * 1000 = NaN; an absent refresh_token leaves the
field undefined); otherwise throw. -/
def forgeRefreshToken (env : Env) (s : AuthState) : Except JsError AuthState × List Ev :=
  if !s.tokenProvider then
    (Except.error (JsError.err providerNotConfiguredMsg), [])
  else
    match env.providerCode with
    | Except.error e => (Except.error e, [Ev.providerInvoked])
    | Except.ok _code =>
      match env.forgeResp with
      | some r =>
          (Except.ok { s with
              accessToken := r.access_token
              expiredAt := some (match r.expires_in with
                | some e => JsNum.num (env.now + e * 1000)
                | none => JsNum.nan)
              refreshToken := r.refresh_token },
           [Ev.providerInvoked, Ev.forgeExchange])
      | none =>
          (Except.error (JsError.err failedForgeMsg), [Ev.providerInvoked, Ev.forgeExchange])

/-- AzureAuth.refreshAccessToken: exchange the held refresh token; on a 200
response assign the access token, and assign expiry and refresh token only when
truthy in the response; any failure surfaces the generic renewal error. -/
def refreshAccessToken (env : Env) (s : AuthState) : Except JsError AuthState × List Ev :=
  match env.refreshResp with
  | some r =>
      (Except.ok { s with
          accessToken := r.access_token
          expiredAt := if intTruthy r.expires_in then
              some (JsNum.num (env.now + (r.expires_in.getD 0) * 1000))
            else s.expiredAt
          refreshToken := if strTruthy r.refresh_token then r.refresh_token
            else s.refreshToken },
       [Ev.refreshExchange])
  | none => (Except.error (JsError.err failedRefreshMsg), [Ev.refreshExchange])

/-- AzureAuth.ensureRefreshToken for a solitary caller (storageLoadPromise is null
at entry): return if a refresh token is held, otherwise always try the storage
load first, and consult the provider only when storage yielded nothing; with
neither, throw the no-credential error naming the resolved storage path. -/
def ensureRefreshToken (env : Env) (s : AuthState) (fs : FS) :
    Except JsError Unit × AuthState × FS × List Ev :=
  if strTruthy s.refreshToken then (Except.ok (), s, fs, [])
  else
    let (_loaded, s1, ev1) := loadFromStorage s fs
    if strTruthy s1.refreshToken then (Except.ok (), s1, fs, ev1)
    else if s1.tokenProvider then
      match forgeRefreshToken env s1 with
      | (Except.ok s2, ev2) =>
          let (fs2, ev3) := saveToStorage s2 fs
          (Except.ok (), s2, fs2, ev1 ++ ev2 ++ ev3)
      | (Except.error e, ev2) => (Except.error e, s1, fs, ev1 ++ ev2)
    else
      (Except.error (JsError.err (noRefreshTokenMsg s1.storagePath)), s1, fs, ev1)

/-- The expiry gate of AzureAuth.checkToken:
this.expiredAt && Date.now() >= this.expiredAt.  An undefined, zero or NaN expiry
is falsy (and now >= NaN is false), so the gate only fires on a nonzero integer
expiry that has passed. -/
def expiryGate (now : Int) : Option JsNum → Bool
  | none => false
  | some JsNum.nan => false
  | some (JsNum.num n) => n != 0 && decide (now ≥ n)

/-- AzureAuth.checkToken for a solitary caller (tokenRefreshPromise is null):
return at once in access-token-only mode; ensure credentials and a refresh token;
then refresh and persist only when the expiry gate fires. -/
def checkToken (env : Env) (s : AuthState) (fs : FS) :
    Except JsError Unit × AuthState × FS × List Ev :=
  if s.isAccessTokenOnly then (Except.ok (), s, fs, [])
  else
    match ensureCredentials s with
    | Except.error e => (Except.error e, s, fs, [])
    | Except.ok s1 =>
      match ensureRefreshToken env s1 fs with
      | (Except.error e, s2, fs2, ev) => (Except.error e, s2, fs2, ev)
      | (Except.ok _, s2, fs2, ev) =>
        if expiryGate env.now s2.expiredAt then
          match refreshAccessToken env s2 with
          | (Except.ok s3, ev2) =>
              let (fs3, ev3) := saveToStorage s3 fs2
              (Except.ok (), s3, fs3, ev ++ ev2 ++ ev3)
          | (Except.error e, ev2) => (Except.error e, s2, fs2, ev ++ ev2)
        else (Except.ok (), s2, fs2, ev)

/-- AzureAuth.getAccessToken: checkToken, then return this.accessToken. -/
def getAccessToken (env : Env) (s : AuthState) (fs : FS) :
    Except JsError String × AuthState × FS × List Ev :=
  match checkToken env s fs with
  | (Except.ok _, s1, fs1, ev) => (Except.ok s1.accessToken, s1, fs1, ev)
  | (Except.error e, s1, fs1, ev) => (Except.error e, s1, fs1, ev)

/-- The provider fallback of AzureAuth.invalidateAndRefresh: forge through the
provider and persist, or fail unrecoverably when no provider is configured. -/
def invalidateFallback (env : Env) (s0 : AuthState) (fs : FS) (ev0 : List Ev) :
    Except JsError Unit × AuthState × FS × List Ev :=
  if s0.tokenProvider then
    match forgeRefreshToken env s0 with
    | (Except.ok s1, ev) =>
        let (fs1, ev2) := saveToStorage s1 fs
        (Except.ok (), s1, fs1, ev0 ++ ev ++ ev2)
    | (Except.error e, ev) => (Except.error e, s0, fs, ev0 ++ ev)
  else
    (Except.error (JsError.err cannotRecoverMsg), s0, fs, ev0)

/-- AzureAuth.invalidateAndRefresh: first clear the access token and set the
expiry to 0, then try the refresh-token exchange if a refresh token is held,
falling through to the provider path on its failure. -/
def invalidateAndRefresh (env : Env) (s : AuthState) (fs : FS) :
    Except JsError Unit × AuthState × FS × List Ev :=
  let s0 := { s with accessToken := "", expiredAt := some (JsNum.num 0) }
  if strTruthy s0.refreshToken then
    match refreshAccessToken env s0 with
    | (Except.ok s1, ev) => (Except.ok (), s1, fs, ev)
    | (Except.error _, ev) => invalidateFallback env s0 fs ev
  else
    invalidateFallback env s0 fs []

/-- AzureAuth.withRetry.  The wrapped operation is modelled by the outcome of its
i-th invocation.  The last component counts the invocations of the operation.
A 401 with the guard clear sets the guard, runs invalidateAndRefresh, re-executes
the operation exactly once and clears the guard in a finally; the retry outcome
(and a recovery failure) propagates without enhanceError, which only applies to
errors rejected on the non-retry path. -/
def withRetry (env : Env) (s : AuthState) (fs : FS)
    (op : Nat → Except JsError α) :
    Except JsError α × AuthState × FS × Nat :=
  match op 0 with
  | Except.ok v => (Except.ok v, s, fs, 1)
  | Except.error e =>
    if is401 e && !s.isRetrying then
      match invalidateAndRefresh env { s with isRetrying := true } fs with
      | (Except.ok _, s2, fs2, _) =>
          (op 1, { s2 with isRetrying := false }, fs2, 2)
      | (Except.error e2, s2, fs2, _) =>
          (Except.error e2, { s2 with isRetrying := false }, fs2, 1)
    else
      (Except.error (enhanceError e), s, fs, 1)

/-- AzureAuth.handleApiError: in access-token-only mode a 401 becomes the
remediation error; everything else is rethrown unchanged. -/
def handleApiError (s : AuthState) (e : JsError) : JsError :=
  if s.isAccessTokenOnly && is401 e then JsError.err accessTokenOnlyMsg else e

/-- The recognized configuration surface (interface AzureConfig); scopes and
allowInsecure are omitted as no verified claim mentions them.  tokenProvider is
a configured/absent flag. -/
structure AzureConfig where
  accessToken : Option String
  refreshToken : Option String
  tokenProvider : Bool
  clientId : Option String
  clientSecret : Option String
  tenantId : Option String
deriving DecidableEq

/-- The field initializers of a fresh AzureAuth instance; the constructor sets
storagePath from the (empty) tenant and client. -/
def initialState : AuthState :=
  { expiredAt := none
    refreshToken := some ""
    accessToken := ""
    tokenProvider := false
    storagePath := "tokens.json"
    clientId := ""
    clientSecret := ""
    tenantId := ""
    isAccessTokenOnly := false
    isRetrying := false }

/-- AzureAuth.applyConfig: each truthy config field overwrites the instance field
(a supplied accessToken also switches the instance to access-token-only mode);
finally the storage path is refreshed. -/
def applyConfig (cfg : AzureConfig) (s : AuthState) : AuthState :=
  let s1 := if strTruthy cfg.accessToken then
      { s with accessToken := cfg.accessToken.getD "", isAccessTokenOnly := true }
    else s
  let s2 := if strTruthy cfg.refreshToken then { s1 with refreshToken := cfg.refreshToken }
    else s1
  let s3 := if cfg.tokenProvider then { s2 with tokenProvider := true } else s2
  let s4 := if strTruthy cfg.clientId then { s3 with clientId := cfg.clientId.getD "" }
    else s3
  let s5 := if strTruthy cfg.clientSecret then
      { s4 with clientSecret := cfg.clientSecret.getD "" }
    else s4
  let s6 := if strTruthy cfg.tenantId then { s5 with tenantId := cfg.tenantId.getD "" }
    else s5
  updateStoragePath s6

/-- String.startsWith, expressed on the character lists so that it evaluates
inside the kernel. -/
def strStartsWith (s p : String) : Bool := p.data.isPrefixOf s.data

/-- String.endsWith, expressed on the character lists. -/
def strEndsWith (s p : String) : Bool := p.data.isSuffixOf s.data

/-- The token-file filter of listStoredCredentials / clearStoredCredentials:
f.startsWith("tokens") && f.endsWith(".json"). -/
def isTokenFile (f : String) : Bool :=
  strStartsWith f "tokens" && strEndsWith f ".json"

def tokenFileName (t c : String) : String :=
  "tokens." ++ t ++ "." ++ c ++ ".json"

/-- fs.unlink on the directory model: remove the entry or fail with ENOENT. -/
def unlink (dir : FS) (f : String) : Except String FS :=
  if (dir.find? (fun kv => kv.1 == f)).isSome then
    Except.ok (dir.filter (fun kv => kv.1 != f))
  else
    Except.error "ENOENT"

/-- AzureAuth.clearStoredCredentials: with both identifiers truthy, unlink exactly
tokens.tenantId.clientId.json (an ENOENT is swallowed, other unlink errors are
logged and swallowed); otherwise delete every file matching the token-file
pattern.  The operation never throws. -/
def clearStoredCredentials (tenantId clientId : Option String) (dir : FS) : FS :=
  if strTruthy tenantId && strTruthy clientId then
    match unlink dir (tokenFileName (tenantId.getD "") (clientId.getD "")) with
    | Except.ok d => d
    | Except.error _ => dir
  else
    dir.filter (fun kv => !(isTokenFile kv.1))

namespace Race

/-!
A faithful small-step model of N logically concurrent ensureRefreshToken calls on
one instance holding no refresh token and configured without a tokenProvider
(the situation of the concurrency claim).  The single-threaded event loop is
explicit: a FIFO microtask queue of caller resumptions, promises that resolve and
wake their awaiters in registration order, and pending storage reads (the
fs.readFile inside loadFromStorage) that complete in FIFO order, one at a time,
only when the microtask queue has drained.  Callers start in order, each running
synchronously to its first await.  The continuation points correspond to the
awaits of ensureRefreshToken (src/core/auth.ts lines 419-492):

  k1: resumed from the await on the in-flight promise at the top of the method;
  k2: resumed from the await in the re-check after the refresh-token test;
  k3: resumed from the await on the load this caller started itself (its finally
      clears storageLoadPromise unconditionally);
  k4: resumed from the await in the re-check before the provider step.
-/

inductive K where
  | start | k1 | k2 | k3 | k4
deriving DecidableEq

/-- How a caller finished: returned normally, or rejected with the no-credential
error (whose text is built from shared instance state, so it is identical for
every caller). -/
inductive ROutcome where
  | ok
  | noCred
deriving DecidableEq

structure RaceSys where
  /-- The refresh token the stored file yields, if any. -/
  storage : Option String
  /-- this.refreshToken. -/
  rt : String
  /-- this.storageLoadPromise: the id of the promise currently in the slot. -/
  slp : Option Nat
  /-- Next fresh promise id. -/
  nextP : Nat
  /-- Promise ids that have settled. -/
  resolvedP : List Nat
  /-- (promise, caller, continuation) in registration order. -/
  waiters : List (Nat × Nat × K)
  /-- Ids of load promises whose storage read is still outstanding, FIFO. -/
  pending : List Nat
  /-- The microtask queue of caller resumptions. -/
  micro : List (Nat × K)
  /-- How many times loadFromStorage was invoked. -/
  loadCount : Nat
  /-- Settled callers, in settlement order. -/
  results : List (Nat × ROutcome)
deriving DecidableEq

/-- Await promise p: if it already settled the continuation is scheduled as a
microtask, otherwise the caller registers as a waiter. -/
def awaitP (s : RaceSys) (p : Nat) (c : Nat) (k : K) : RaceSys :=
  if s.resolvedP.contains p then { s with micro := s.micro ++ [(c, k)] }
  else { s with waiters := s.waiters ++ [(p, c, k)] }

/-- Start a storage load: a fresh promise enters the storageLoadPromise slot, its
read becomes outstanding, and the starting caller awaits it (continuation k3). -/
def startLoad (s : RaceSys) (c : Nat) : RaceSys :=
  { s with
    nextP := s.nextP + 1
    slp := some s.nextP
    pending := s.pending ++ [s.nextP]
    loadCount := s.loadCount + 1
    waiters := s.waiters ++ [(s.nextP, c, K.k3)] }

def finish (s : RaceSys) (c : Nat) (o : ROutcome) : RaceSys :=
  { s with results := s.results ++ [(c, o)] }

/-- The code from the refresh-token test after the first await block: return if a
token appeared, await an in-flight promise if one is in the slot, else start a
load. -/
def body428 (s : RaceSys) (c : Nat) : RaceSys :=
  if s.rt != "" then finish s c ROutcome.ok
  else
    match s.slp with
    | some p => awaitP s p c K.k2
    | none => startLoad s c

/-- The code after the own-load try/finally: return if a token appeared, await an
in-flight promise if one is in the slot, else (no provider is configured here)
reject with the no-credential error. -/
def body455 (s : RaceSys) (c : Nat) : RaceSys :=
  if s.rt != "" then finish s c ROutcome.ok
  else
    match s.slp with
    | some p => awaitP s p c K.k4
    | none => finish s c ROutcome.noCred

/-- Run caller c from continuation k until its next await or completion. -/
def resume (s : RaceSys) (c : Nat) : K → RaceSys
  | K.start =>
    match s.slp with
    | some p => awaitP s p c K.k1
    | none => body428 s c
  | K.k1 => if s.rt != "" then finish s c ROutcome.ok else body428 s c
  | K.k2 => if s.rt != "" then finish s c ROutcome.ok else startLoad s c
  | K.k3 =>
    let s1 := { s with slp := none }
    if s1.rt != "" then finish s1 c ROutcome.ok else body455 s1 c
  | K.k4 => if s.rt != "" then finish s c ROutcome.ok else finish s c ROutcome.noCred

/-- The outstanding read of load promise p completes: loadFromStorage applies its
effect (assigning the stored refresh token on success), the promise settles, and
its waiters are scheduled in registration order. -/
def completeRead (s : RaceSys) (p : Nat) : RaceSys :=
  let s1 := match s.storage with
    | some t => { s with rt := t }
    | none => s
  { s1 with
    resolvedP := s1.resolvedP ++ [p]
    micro := s1.micro ++ (s1.waiters.filter (fun w => w.1 == p)).map (fun w => (w.2.1, w.2.2))
    waiters := s1.waiters.filter (fun w => w.1 != p) }

/-- One event-loop step: run the next microtask; with the queue drained, complete
the oldest outstanding read; quiescent otherwise. -/
def step (s : RaceSys) : RaceSys :=
  match s.micro with
  | (c, k) :: rest => resume { s with micro := rest } c k
  | [] =>
    match s.pending with
    | p :: ps => completeRead { s with pending := ps } p
    | [] => s

def run : Nat → RaceSys → RaceSys
  | 0, s => s
  | fuel + 1, s => run fuel (step s)

/-- N concurrent calls, started in order on an instance with no refresh token in
memory, an empty promise slot and no provider. -/
def initSys (n : Nat) (storage : Option String) : RaceSys :=
  { storage := storage
    rt := ""
    slp := none
    nextP := 0
    resolvedP := []
    waiters := []
    pending := []
    micro := (List.range n).map (fun i => (i, K.start))
    loadCount := 0
    results := [] }

/-- The run has fully settled. -/
def quiescent (s : RaceSys) : Prop := s.micro = [] ∧ s.pending = []

/-- The k3 waiter list produced when each caller of cs starts its own load, with
promise ids counting up from p0. -/
def loadWaiters : Nat → List Nat → List (Nat × Nat × K)
  | _, [] => []
  | p0, c :: cs => (p0, c, K.k3) :: loadWaiters (p0 + 1) cs

/-- The storageLoadPromise slot after each caller of cs starts its own load in
turn (promise ids counting up from p0): the last started promise, if any. -/
def slpAfter : Option Nat → Nat → List Nat → Option Nat
  | o, _, [] => o
  | _, p0, _ :: cs => slpAfter (some p0) (p0 + 1) cs

/-- The slot after each caller of cs is resumed from its own load (each k3
resumption clears the slot). -/
def slpDrain : Option Nat → List Nat → Option Nat
  | o, [] => o
  | _, _ :: cs => slpDrain none cs

lemma slpDrain_none (cs : List Nat) : slpDrain none cs = none := by
  induction cs with
  | nil => rfl
  | cons c cs ih => exact ih

lemma slpDrain_slpAfter (cs : List Nat) (p : Nat) :
    slpDrain (slpAfter none p cs) cs = none := by
  cases cs with
  | nil => rfl
  | cons c cs => exact slpDrain_none cs

lemma run_succ (fuel : Nat) (s : RaceSys) : run (fuel + 1) s = run fuel (step s) := rfl

lemma run_add (a b : Nat) (s : RaceSys) : run (a + b) s = run b (run a s) := by
  induction a generalizing s with
  | zero => simp [run]
  | succ a ih =>
    have h : a + 1 + b = (a + b) + 1 := by omega
    rw [h, run_succ, run_succ, ih]

lemma run_chain {a b : Nat} {s s1 s2 : RaceSys}
    (h1 : run a s = s1) (h2 : run b s1 = s2) : run (a + b) s = s2 := by
  rw [run_add, h1, h2]

lemma run_quiescent (k : Nat) (s : RaceSys) (hm : s.micro = []) (hp : s.pending = []) :
    run k s = s := by
  induction k with
  | zero => rfl
  | succ k ih =>
    rw [run_succ]
    have hs : step s = s := by
      simp [step, hm, hp]
    rw [hs, ih]

/-- Every waiter recorded by loadWaiters carries a promise id at least p0. -/
lemma loadWaiters_filter_eq (cs : List Nat) : ∀ (p0 q : Nat), q < p0 →
    (loadWaiters p0 cs).filter (fun w => w.1 == q) = [] := by
  induction cs with
  | nil => intro p0 q _; rfl
  | cons c cs ih =>
    intro p0 q hq
    have hne : ((p0, c, K.k3).1 == q) = false := by
      simp only [beq_eq_false_iff_ne]
      omega
    simp only [loadWaiters, List.filter_cons, hne]
    exact ih (p0 + 1) q (by omega)

lemma loadWaiters_filter_ne (cs : List Nat) : ∀ (p0 q : Nat), q < p0 →
    (loadWaiters p0 cs).filter (fun w => w.1 != q) = loadWaiters p0 cs := by
  induction cs with
  | nil => intro p0 q _; rfl
  | cons c cs ih =>
    intro p0 q hq
    have hne : ((p0, c, K.k3).1 != q) = true := by
      simp only [bne_iff_ne, ne_eq]
      omega
    simp [loadWaiters, List.filter_cons, hne, ih (p0 + 1) q (by omega)]

/-- Phase lemma: callers arriving while a not-yet-settled promise p occupies the
slot each register on p with continuation k1. -/
lemma run_starts (sto : Option String) (p : Nat) :
    ∀ (cs : List Nat) (np lc : Nat) (res : List Nat) (ws : List (Nat × Nat × K))
      (pend : List Nat) (rest : List (Nat × K)) (rs : List (Nat × ROutcome)),
      p ∉ res →
      run cs.length
        ⟨sto, "", some p, np, res, ws, pend,
          cs.map (fun c => (c, K.start)) ++ rest, lc, rs⟩
      = ⟨sto, "", some p, np, res, ws ++ cs.map (fun c => (p, c, K.k1)), pend, rest, lc, rs⟩ := by
  intro cs
  induction cs with
  | nil => intro np lc res ws pend rest rs _; simp [run]
  | cons c cs ih =>
    intro np lc res ws pend rest rs hres
    have h1 : run 1 ⟨sto, "", some p, np, res, ws, pend,
        (c :: cs).map (fun c => (c, K.start)) ++ rest, lc, rs⟩
      = ⟨sto, "", some p, np, res, ws ++ [(p, c, K.k1)], pend,
          cs.map (fun c => (c, K.start)) ++ rest, lc, rs⟩ := by
      show run 0 _ = _
      simp [run, step, resume, awaitP, hres]
    have h2 := ih np lc res (ws ++ [(p, c, K.k1)]) pend rest rs hres
    rw [show (c :: cs).length = 1 + cs.length by simp [Nat.add_comm]]
    rw [run_chain h1 h2]
    simp

/-- Phase lemma: resumed k1 callers finding a nonempty refresh token all return. -/
lemma run_k1s_ok (sto : Option String) (t : String) (ht : t ≠ "") :
    ∀ (cs : List Nat) (slp : Option Nat) (np lc : Nat) (res : List Nat)
      (ws : List (Nat × Nat × K)) (pend : List Nat) (rest : List (Nat × K))
      (rs : List (Nat × ROutcome)),
      run cs.length
        ⟨sto, t, slp, np, res, ws, pend, cs.map (fun c => (c, K.k1)) ++ rest, lc, rs⟩
      = ⟨sto, t, slp, np, res, ws, pend, rest, lc,
          rs ++ cs.map (fun c => (c, ROutcome.ok))⟩ := by
  intro cs
  induction cs with
  | nil => intro slp np lc res ws pend rest rs; simp [run]
  | cons c cs ih =>
    intro slp np lc res ws pend rest rs
    have h1 : run 1 ⟨sto, t, slp, np, res, ws, pend,
        (c :: cs).map (fun c => (c, K.k1)) ++ rest, lc, rs⟩
      = ⟨sto, t, slp, np, res, ws, pend,
          cs.map (fun c => (c, K.k1)) ++ rest, lc, rs ++ [(c, ROutcome.ok)]⟩ := by
      show run 0 _ = _
      simp [run, step, resume, finish, bne_iff_ne, ht]
    have h2 := ih slp np lc res ws pend rest (rs ++ [(c, ROutcome.ok)])
    rw [show (c :: cs).length = 1 + cs.length by simp [Nat.add_comm]]
    rw [run_chain h1 h2]
    simp

/-- Phase lemma: resumed k1 callers finding no token and a not-yet-settled
promise p in the slot each register on p with continuation k2. -/
lemma run_k1s_empty (sto : Option String) (p : Nat) :
    ∀ (cs : List Nat) (np lc : Nat) (res : List Nat) (ws : List (Nat × Nat × K))
      (pend : List Nat) (rest : List (Nat × K)) (rs : List (Nat × ROutcome)),
      p ∉ res →
      run cs.length
        ⟨sto, "", some p, np, res, ws, pend, cs.map (fun c => (c, K.k1)) ++ rest, lc, rs⟩
      = ⟨sto, "", some p, np, res, ws ++ cs.map (fun c => (p, c, K.k2)), pend, rest, lc, rs⟩ := by
  intro cs
  induction cs with
  | nil => intro np lc res ws pend rest rs _; simp [run]
  | cons c cs ih =>
    intro np lc res ws pend rest rs hres
    have h1 : run 1 ⟨sto, "", some p, np, res, ws, pend,
        (c :: cs).map (fun c => (c, K.k1)) ++ rest, lc, rs⟩
      = ⟨sto, "", some p, np, res, ws ++ [(p, c, K.k2)], pend,
          cs.map (fun c => (c, K.k1)) ++ rest, lc, rs⟩ := by
      show run 0 _ = _
      simp [run, step, resume, body428, awaitP, hres]
    have h2 := ih np lc res (ws ++ [(p, c, K.k2)]) pend rest rs hres
    rw [show (c :: cs).length = 1 + cs.length by simp [Nat.add_comm]]
    rw [run_chain h1 h2]
    simp

/-- Phase lemma: resumed k2 callers finding no token each start their own load,
overwriting the slot in turn. -/
lemma run_k2s (sto : Option String) :
    ∀ (cs : List Nat) (slp : Option Nat) (np lc : Nat) (res : List Nat)
      (ws : List (Nat × Nat × K)) (pend : List Nat) (rest : List (Nat × K))
      (rs : List (Nat × ROutcome)),
      run cs.length
        ⟨sto, "", slp, np, res, ws, pend, cs.map (fun c => (c, K.k2)) ++ rest, lc, rs⟩
      = ⟨sto, "", slpAfter slp np cs, np + cs.length, res, ws ++ loadWaiters np cs,
          pend ++ List.range' np cs.length, rest, lc + cs.length, rs⟩ := by
  intro cs
  induction cs with
  | nil => intro slp np lc res ws pend rest rs; simp [run, slpAfter, loadWaiters]
  | cons c cs ih =>
    intro slp np lc res ws pend rest rs
    have h1 : run 1 ⟨sto, "", slp, np, res, ws, pend,
        (c :: cs).map (fun c => (c, K.k2)) ++ rest, lc, rs⟩
      = ⟨sto, "", some np, np + 1, res, ws ++ [(np, c, K.k3)], pend ++ [np],
          cs.map (fun c => (c, K.k2)) ++ rest, lc + 1, rs⟩ := by
      show run 0 _ = _
      simp [run, step, resume, startLoad]
    have h2 := ih (some np) (np + 1) (lc + 1) res (ws ++ [(np, c, K.k3)]) (pend ++ [np]) rest rs
    rw [show (c :: cs).length = 1 + cs.length by simp [Nat.add_comm]]
    rw [run_chain h1 h2]
    congr 1 <;>
      first
        | rfl
        | omega
        | simp [loadWaiters, slpAfter, List.range'_succ, List.append_assoc,
            Nat.add_comm, Nat.add_assoc, Nat.add_left_comm]

/-- Phase lemma: with the microtask queue empty and no stored token, each
outstanding solo load completes and its sole k3 waiter rejects in turn. -/
lemma run_drain :
    ∀ (cs : List Nat) (p0 np lc : Nat) (slp : Option Nat) (res : List Nat)
      (rs : List (Nat × ROutcome)),
      run (2 * cs.length)
        ⟨none, "", slp, np, res, loadWaiters p0 cs, List.range' p0 cs.length, [], lc, rs⟩
      = ⟨none, "", slpDrain slp cs, np, res ++ List.range' p0 cs.length, [], [], [], lc,
          rs ++ cs.map (fun c => (c, ROutcome.noCred))⟩ := by
  intro cs
  induction cs with
  | nil => intro p0 np lc slp res rs; simp [run, slpDrain, loadWaiters]
  | cons c cs ih =>
    intro p0 np lc slp res rs
    have h1 : run 1 ⟨none, "", slp, np, res, loadWaiters p0 (c :: cs),
        List.range' p0 (c :: cs).length, [], lc, rs⟩
      = ⟨none, "", slp, np, res ++ [p0], loadWaiters (p0 + 1) cs,
          List.range' (p0 + 1) cs.length, [(c, K.k3)], lc, rs⟩ := by
      show run 0 _ = _
      rw [show (c :: cs).length = cs.length + 1 from rfl, List.range'_succ p0 cs.length 1]
      simp [run, step, completeRead, loadWaiters, List.filter_cons,
        loadWaiters_filter_eq cs (p0 + 1) p0 (by omega),
        loadWaiters_filter_ne cs (p0 + 1) p0 (by omega)]
    have h2 : run 1 ⟨none, "", slp, np, res ++ [p0], loadWaiters (p0 + 1) cs,
        List.range' (p0 + 1) cs.length, [(c, K.k3)], lc, rs⟩
      = ⟨none, "", none, np, res ++ [p0], loadWaiters (p0 + 1) cs,
          List.range' (p0 + 1) cs.length, [], lc, rs ++ [(c, ROutcome.noCred)]⟩ := by
      show run 0 _ = _
      simp [run, step, resume, body455, finish]
    have h3 := ih (p0 + 1) np lc none (res ++ [p0]) (rs ++ [(c, ROutcome.noCred)])
    have hlen : 2 * (c :: cs).length = 1 + (1 + 2 * cs.length) := by
      simp [List.length_cons]; omega
    rw [hlen, run_chain h1 (run_chain h2 h3)]
    congr 1 <;>
      first
        | rfl
        | omega
        | simp [List.range'_succ, List.append_assoc, Nat.add_comm, Nat.add_assoc,
            Nat.add_left_comm]

/-- Waking the waiters of promise p: registered entries for p are kept and their
caller/continuation extracted. -/
lemma waiters_wake (p : Nat) (k : K) (f : Nat → Nat) (cs : List Nat) :
    ((cs.map (fun c => (p, f c, k))).filter (fun w => w.1 == p)).map (fun w => w.2)
      = cs.map (fun c => (f c, k)) := by
  induction cs with
  | nil => rfl
  | cons c cs ih => simp [List.filter_cons, ih]

/-- Sweeping the waiters of promise p: registered entries for p are removed. -/
lemma waiters_sweep (p : Nat) (k : K) (f : Nat → Nat) (cs : List Nat) :
    (cs.map (fun c => (p, f c, k))).filter (fun w => w.1 != p) = [] := by
  induction cs with
  | nil => rfl
  | cons c cs ih => simp [List.filter_cons, ih]

/-- Full characterization of a run with a stored token: caller 0 starts the one
and only load, callers 1..m wait on it, the read completes assigning the token,
and every caller returns. -/
lemma run_success (m : Nat) (t : String) (ht : t ≠ "") :
    run (2 * m + 3) (initSys (m + 1) (some t))
    = ⟨some t, t, none, 1, [0], [], [], [], 1,
        (List.range (m + 1)).map (fun c => (c, ROutcome.ok))⟩ := by
  have e1 : run 1 ⟨some t, "", none, 0, [], [], [],
        (0, K.start) :: ((List.range m).map Nat.succ).map (fun c => (c, K.start)), 0, []⟩
      = ⟨some t, "", some 0, 1, [], [(0, 0, K.k3)], [0],
          ((List.range m).map Nat.succ).map (fun c => (c, K.start)) ++ [], 0 + 1, []⟩ := by
    show run 0 _ = _
    simp [run, step, resume, body428, startLoad]
  have e2 := run_starts (some t) 0 ((List.range m).map Nat.succ) 1 (0 + 1) [] [(0, 0, K.k3)]
    [0] [] [] (by simp)
  have e3 : run 1 ⟨some t, "", some 0, 1, [], [(0, 0, K.k3)]
        ++ ((List.range m).map Nat.succ).map (fun c => (0, c, K.k1)), [0], [], 0 + 1, []⟩
      = ⟨some t, t, some 0, 1, [0], [], [],
          (0, K.k3) :: ((List.range m).map Nat.succ).map (fun c => (c, K.k1)), 0 + 1, []⟩ := by
    show run 0 _ = _
    simp [run, step, completeRead, List.filter_cons, List.map_map, Function.comp_def,
      waiters_wake, waiters_sweep]
  have e4 : run 1 ⟨some t, t, some 0, 1, [0], [], [],
        (0, K.k3) :: ((List.range m).map Nat.succ).map (fun c => (c, K.k1)), 0 + 1, []⟩
      = ⟨some t, t, none, 1, [0], [], [],
          ((List.range m).map Nat.succ).map (fun c => (c, K.k1)) ++ [], 0 + 1,
          [] ++ [(0, ROutcome.ok)]⟩ := by
    show run 0 _ = _
    simp [run, step, resume, finish, bne_iff_ne, ht]
  have e5 := run_k1s_ok (some t) t ht ((List.range m).map Nat.succ) none 1 (0 + 1) [0] [] []
    [] ([] ++ [(0, ROutcome.ok)])
  have echain := run_chain e1 (run_chain e2 (run_chain e3 (run_chain e4 e5)))
  have hlen : ((List.range m).map Nat.succ).length = m := by simp
  rw [hlen] at echain
  have hfuel : 2 * m + 3 = 1 + (m + (1 + (1 + m))) := by omega
  have hmicro : (List.range (m + 1)).map (fun i => (i, K.start))
      = (0, K.start) :: ((List.range m).map Nat.succ).map (fun c => (c, K.start)) := by
    simp [List.range_succ_eq_map, List.map_map]
  rw [hfuel, show initSys (m + 1) (some t)
    = ⟨some t, "", none, 0, [], [], [],
        (0, K.start) :: ((List.range m).map Nat.succ).map (fun c => (c, K.start)), 0, []⟩
    from by simp [initSys, hmicro], echain]
  congr 1
  simp [List.range_succ_eq_map, List.map_map, Function.comp_def]

/-- Full characterization of a run with nothing in storage, one caller: its own
load finds nothing and it rejects. -/
lemma run_empty_one : run 3 (initSys 1 none)
    = ⟨none, "", none, 1, [0], [], [], [], 1, [(0, ROutcome.noCred)]⟩ := by
  decide

/-- Full characterization of a run with nothing in storage and at least two
callers: caller 0 loads and rejects, caller 1 re-loads while 2..m+1 wait on it,
then each remaining caller starts its own load and rejects in turn; the load runs
once per caller. -/
lemma run_empty (m : Nat) :
    run (5 * m + 7) (initSys (m + 2) none)
    = ⟨none, "", none, 2 + m, List.range (m + 2), [], [], [], 2 + m,
        (List.range (m + 2)).map (fun c => (c, ROutcome.noCred))⟩ := by
  have hmicro : (List.range (m + 2)).map (fun i => (i, K.start))
      = (0, K.start) :: ((List.range (m + 1)).map Nat.succ).map (fun c => (c, K.start)) := by
    simp [List.range_succ_eq_map, List.map_map]
  have hsplit : (List.range (m + 1)).map Nat.succ
      = 1 :: ((List.range m).map (fun i => i + 2)) := by
    simp [List.range_succ_eq_map, List.map_map, Function.comp]
  have e1 : run 1 ⟨none, "", none, 0, [], [], [],
        (0, K.start) :: ((List.range (m + 1)).map Nat.succ).map (fun c => (c, K.start)), 0, []⟩
      = ⟨none, "", some 0, 1, [], [(0, 0, K.k3)], [0],
          ((List.range (m + 1)).map Nat.succ).map (fun c => (c, K.start)) ++ [], 0 + 1, []⟩ := by
    show run 0 _ = _
    simp [run, step, resume, body428, startLoad]
  have e2 := run_starts none 0 ((List.range (m + 1)).map Nat.succ) 1 (0 + 1) [] [(0, 0, K.k3)]
    [0] [] [] (by simp)
  have e3 : run 1 ⟨none, "", some 0, 1, [], [(0, 0, K.k3)]
        ++ ((List.range (m + 1)).map Nat.succ).map (fun c => (0, c, K.k1)), [0], [], 0 + 1, []⟩
      = ⟨none, "", some 0, 1, [0], [], [],
          (0, K.k3) :: ((List.range (m + 1)).map Nat.succ).map (fun c => (c, K.k1)), 0 + 1, []⟩ := by
    show run 0 _ = _
    simp [run, step, completeRead, List.filter_cons, List.map_map, Function.comp_def,
      waiters_wake, waiters_sweep]
  have e4 : run 1 ⟨none, "", some 0, 1, [0], [], [],
        (0, K.k3) :: ((List.range (m + 1)).map Nat.succ).map (fun c => (c, K.k1)), 0 + 1, []⟩
      = ⟨none, "", none, 1, [0], [], [],
          (1, K.k1) :: ((List.range m).map (fun i => i + 2)).map (fun c => (c, K.k1)), 0 + 1,
          [(0, ROutcome.noCred)]⟩ := by
    show run 0 _ = _
    rw [hsplit]
    simp [run, step, resume, body455, finish]
  have e5 : run 1 ⟨none, "", none, 1, [0], [], [],
        (1, K.k1) :: ((List.range m).map (fun i => i + 2)).map (fun c => (c, K.k1)), 0 + 1,
        [(0, ROutcome.noCred)]⟩
      = ⟨none, "", some 1, 2, [0], [(1, 1, K.k3)], [1],
          ((List.range m).map (fun i => i + 2)).map (fun c => (c, K.k1)) ++ [], 2,
          [(0, ROutcome.noCred)]⟩ := by
    show run 0 _ = _
    simp [run, step, resume, body428, startLoad]
  have e6 := run_k1s_empty none 1 ((List.range m).map (fun i => i + 2)) 2 2 [0] [(1, 1, K.k3)]
    [1] [] [(0, ROutcome.noCred)] (by simp)
  have e7 : run 1 ⟨none, "", some 1, 2, [0], [(1, 1, K.k3)]
        ++ ((List.range m).map (fun i => i + 2)).map (fun c => (1, c, K.k2)), [1], [], 2,
        [(0, ROutcome.noCred)]⟩
      = ⟨none, "", some 1, 2, [0, 1], [], [],
          (1, K.k3) :: ((List.range m).map (fun i => i + 2)).map (fun c => (c, K.k2)), 2,
          [(0, ROutcome.noCred)]⟩ := by
    show run 0 _ = _
    simp [run, step, completeRead, List.filter_cons, List.map_map, Function.comp_def,
      waiters_wake, waiters_sweep]
  have e8 : run 1 ⟨none, "", some 1, 2, [0, 1], [], [],
        (1, K.k3) :: ((List.range m).map (fun i => i + 2)).map (fun c => (c, K.k2)), 2,
        [(0, ROutcome.noCred)]⟩
      = ⟨none, "", none, 2, [0, 1], [], [],
          ((List.range m).map (fun i => i + 2)).map (fun c => (c, K.k2)) ++ [], 2,
          [(0, ROutcome.noCred), (1, ROutcome.noCred)]⟩ := by
    show run 0 _ = _
    simp [run, step, resume, body455, finish]
  have e9 := run_k2s none ((List.range m).map (fun i => i + 2)) none 2 2 [0, 1] [] [] []
    [(0, ROutcome.noCred), (1, ROutcome.noCred)]
  have e10 := run_drain ((List.range m).map (fun i => i + 2)) 2
    (2 + ((List.range m).map (fun i => i + 2)).length)
    (2 + ((List.range m).map (fun i => i + 2)).length)
    (slpAfter none 2 ((List.range m).map (fun i => i + 2))) [0, 1]
    [(0, ROutcome.noCred), (1, ROutcome.noCred)]
  have e9' : run ((List.range m).map (fun i => i + 2)).length
      ⟨none, "", none, 2, [0, 1], [], [],
        ((List.range m).map (fun i => i + 2)).map (fun c => (c, K.k2)) ++ [], 2,
        [(0, ROutcome.noCred), (1, ROutcome.noCred)]⟩
      = ⟨none, "", slpAfter none 2 ((List.range m).map (fun i => i + 2)),
          2 + ((List.range m).map (fun i => i + 2)).length, [0, 1],
          loadWaiters 2 ((List.range m).map (fun i => i + 2)),
          List.range' 2 ((List.range m).map (fun i => i + 2)).length, [],
          2 + ((List.range m).map (fun i => i + 2)).length,
          [(0, ROutcome.noCred), (1, ROutcome.noCred)]⟩ := by
    rw [e9]
    simp
  have echain := run_chain e1 (run_chain e2 (run_chain e3 (run_chain e4 (run_chain e5
    (run_chain e6 (run_chain e7 (run_chain e8 (run_chain e9' e10))))))))
  have hlen1 : ((List.range (m + 1)).map Nat.succ).length = m + 1 := by simp
  have hlen2 : ((List.range m).map (fun i => i + 2)).length = m := by simp
  rw [hlen1, hlen2] at echain
  have hfuel : 5 * m + 7
      = 1 + ((m + 1) + (1 + (1 + (1 + (m + (1 + (1 + (m + 2 * m)))))))) := by omega
  rw [hfuel, show initSys (m + 2) none
    = ⟨none, "", none, 0, [], [], [],
        (0, K.start) :: ((List.range (m + 1)).map Nat.succ).map (fun c => (c, K.start)), 0, []⟩
    from by simp [initSys, hmicro], echain, slpDrain_slpAfter]
  congr 1
  · rw [List.range_eq_range', List.range'_succ 0 (m + 1) 1, List.range'_succ 1 m 1]
    rfl
  · rw [List.range_succ_eq_map (m + 1), hsplit]
    simp [List.map_map, Function.comp_def]

end Race

/-! ## Claim theorems -/

/-- Reading back the file just written. -/
lemma fsGet_fsWrite_self (fs : FS) (p : String) (c : StoredCredentials) :
    fsGet (fsWrite fs p c) p = some c := by
  simp [fsGet, fsWrite]

/-- Lookup through a filter on file names. -/
lemma fsGet_filter (q : String → Bool) (dir : FS) (f : String) :
    fsGet (dir.filter (fun kv => q kv.1)) f = if q f then fsGet dir f else none := by
  induction dir with
  | nil => simp [fsGet]
  | cons kv rest ih =>
    by_cases hq : q kv.1
    · by_cases he : kv.1 = f
      · subst he
        simp [fsGet, List.filter_cons, hq]
      · have hne : (kv.1 == f) = false := by simp [he]
        have hcons : fsGet (kv :: rest) f = fsGet rest f := by
          simp only [fsGet, List.find?_cons, hne]
        have hconsf : fsGet (kv :: rest.filter (fun kv2 => q kv2.1)) f
            = fsGet (rest.filter (fun kv2 => q kv2.1)) f := by
          simp only [fsGet, List.find?_cons, hne]
        simp [List.filter_cons, hq, hconsf, ih, hcons]
    · have hq0 : q kv.1 = false := by simp [hq]
      by_cases he : kv.1 = f
      · subst he
        simp [List.filter_cons, hq0, ih]
      · have hne : (kv.1 == f) = false := by simp [he]
        have hcons : fsGet (kv :: rest) f = fsGet rest f := by
          simp only [fsGet, List.find?_cons, hne]
        simp [List.filter_cons, hq0, ih, hcons]

/-- Claim C1, counterexample: two concurrent getValidToken callers on an
instance with no refresh token in memory, no token provider, and nothing in
storage drive loadFromStorage twice — not exactly once as the claim states —
although both callers do reject with the same no-credential error and the run
settles. -/
theorem C1_counterexample :
    (Race.run 8 (Race.initSys 2 none)).loadCount = 2
    ∧ ¬ (Race.run 8 (Race.initSys 2 none)).loadCount = 1
    ∧ (Race.run 8 (Race.initSys 2 none)).results
        = [(0, Race.ROutcome.noCred), (1, Race.ROutcome.noCred)]
    ∧ (Race.run 8 (Race.initSys 2 none)).micro = []
    ∧ (Race.run 8 (Race.initSys 2 none)).pending = [] := by
  decide

/-- Claim C1, amended: for N concurrent getValidToken calls on one instance
with no refresh token held and no token provider configured, when the storage
load yields a refresh token the load is invoked exactly once and all N calls
return with that same token; when storage yields nothing, all N calls reject
with the same no-credential error, but the load is invoked N times — once per
caller, sequentially — rather than exactly once. -/
theorem C1_amended (n fuel : Nat) (hn : 1 ≤ n) (hf : 5 * n ≤ fuel)
    (t : String) (ht : t ≠ "") :
    ((Race.run fuel (Race.initSys n (some t))).loadCount = 1
      ∧ (Race.run fuel (Race.initSys n (some t))).rt = t
      ∧ (Race.run fuel (Race.initSys n (some t))).results
          = (List.range n).map (fun c => (c, Race.ROutcome.ok))
      ∧ Race.quiescent (Race.run fuel (Race.initSys n (some t))))
    ∧ ((Race.run fuel (Race.initSys n none)).loadCount = n
      ∧ (Race.run fuel (Race.initSys n none)).results
          = (List.range n).map (fun c => (c, Race.ROutcome.noCred))
      ∧ Race.quiescent (Race.run fuel (Race.initSys n none))) := by
  obtain ⟨m, rfl⟩ : ∃ m, n = m + 1 := ⟨n - 1, by omega⟩
  constructor
  · have hfe : fuel = (2 * m + 3) + (fuel - (2 * m + 3)) := by omega
    have hrun : Race.run fuel (Race.initSys (m + 1) (some t))
        = ⟨some t, t, none, 1, [0], [], [], [], 1,
            (List.range (m + 1)).map (fun c => (c, Race.ROutcome.ok))⟩ := by
      rw [hfe, Race.run_add, Race.run_success m t ht, Race.run_quiescent _ _ rfl rfl]
    rw [hrun]
    exact ⟨rfl, rfl, rfl, rfl, rfl⟩
  · rcases m with _ | mm
    · simp only [Nat.zero_add]
      have hfe : fuel = 3 + (fuel - 3) := by omega
      have hrun : Race.run fuel (Race.initSys 1 none)
          = ⟨none, "", none, 1, [0], [], [], [], 1, [(0, Race.ROutcome.noCred)]⟩ := by
        rw [hfe, Race.run_add, Race.run_empty_one, Race.run_quiescent _ _ rfl rfl]
      rw [hrun]
      exact ⟨rfl, rfl, rfl, rfl⟩
    · have hfe : fuel = (5 * mm + 7) + (fuel - (5 * mm + 7)) := by omega
      have hrun : Race.run fuel (Race.initSys (mm + 1 + 1) none)
          = ⟨none, "", none, 2 + mm, List.range (mm + 2), [], [], [], 2 + mm,
              (List.range (mm + 2)).map (fun c => (c, Race.ROutcome.noCred))⟩ := by
        rw [hfe, Race.run_add, show Race.initSys (mm + 1 + 1) none
          = Race.initSys (mm + 2) none from rfl, Race.run_empty mm,
          Race.run_quiescent _ _ rfl rfl]
      rw [hrun]
      refine ⟨?_, rfl, rfl, rfl⟩
      show (2 + mm : Nat) = mm + 1 + 1
      omega

/-- Claim C1, witness: the amended statement evaluated at three concurrent
callers with a stored token "stored" and fuel 15. -/
theorem C1_amended_witness :
    ((Race.run 15 (Race.initSys 3 (some "stored"))).loadCount = 1
      ∧ (Race.run 15 (Race.initSys 3 (some "stored"))).rt = "stored"
      ∧ (Race.run 15 (Race.initSys 3 (some "stored"))).results
          = (List.range 3).map (fun c => (c, Race.ROutcome.ok))
      ∧ Race.quiescent (Race.run 15 (Race.initSys 3 (some "stored"))))
    ∧ ((Race.run 15 (Race.initSys 3 none)).loadCount = 3
      ∧ (Race.run 15 (Race.initSys 3 none)).results
          = (List.range 3).map (fun c => (c, Race.ROutcome.noCred))
      ∧ Race.quiescent (Race.run 15 (Race.initSys 3 none))) :=
  C1_amended 3 15 (by decide) (by decide) "stored" (by decide)

/-- Scenario A configuration: only a refresh token plus the three OAuth
parameters. -/
def configA : AzureConfig :=
  { accessToken := none, refreshToken := some "tokA", tokenProvider := false,
    clientId := some "c1", clientSecret := some "s1", tenantId := some "t1" }

/-- The Scenario A instance right after construction. -/
def scenarioA : AuthState := applyConfig configA initialState

/-- The Scenario A instance with an already-passed nonzero expiry. -/
def scenarioA2 : AuthState := { scenarioA with expiredAt := some (JsNum.num 500) }

/-- An environment whose refresh exchange succeeds and delivers access token
"netTok". -/
def envA : Env :=
  { now := 1000
    refreshResp := some { access_token := "netTok", expires_in := some 3600,
                          refresh_token := some "rot" }
    providerCode := Except.ok "code"
    forgeResp := none }

/-- Claim C2, counterexample: in Scenario A (refresh token, credentials, no
expiry ever set) the first getAccessToken call performs zero refresh exchanges
and returns the initial empty access token, not the token the mocked exchange
would deliver. -/
theorem C2_counterexample :
    (getAccessToken envA scenarioA []).1 = Except.ok ""
    ∧ ((getAccessToken envA scenarioA []).2.2.2).count Ev.refreshExchange = 0
    ∧ (Except.ok "" : Except JsError String) ≠ Except.ok "netTok" := by
  decide

/-- Claim C2, amended: with a refresh token and all three OAuth parameters
configured and not in access-token-only mode, a getAccessToken call with no
expiry set performs no refresh exchange and returns the held access token
unchanged; a refresh exchange (exactly one, followed by a storage save) happens
only when a nonzero integer expiry is set and has passed, and then the call
returns the access token delivered by the exchange. -/
theorem C2_amended (env : Env) (s : AuthState) (fs : FS)
    (hat : s.isAccessTokenOnly = false)
    (hrt : strTruthy s.refreshToken = true)
    (hc : s.clientId ≠ "") (hcs : s.clientSecret ≠ "") (htn : s.tenantId ≠ "") :
    (s.expiredAt = none →
      getAccessToken env s fs = (Except.ok s.accessToken, updateStoragePath s, fs, []))
    ∧ (∀ (e : Int) (r : TokenResponse), s.expiredAt = some (JsNum.num e) → e ≠ 0 →
        env.now ≥ e → env.refreshResp = some r →
        (getAccessToken env s fs).1 = Except.ok r.access_token
        ∧ (getAccessToken env s fs).2.2.2 = [Ev.refreshExchange, Ev.storageSave]) := by
  constructor
  · intro hexp
    simp [getAccessToken, checkToken, ensureCredentials, ensureRefreshToken,
      updateStoragePath, expiryGate, hat, hrt, hc, hcs, htn, hexp, bne_iff_ne]
  · intro e r hexp he0 hnow hresp
    have hgate : expiryGate env.now (some (JsNum.num e)) = true := by
      simp [expiryGate, he0, hnow, bne_iff_ne]
    have hsave : strTruthy (if strTruthy r.refresh_token then r.refresh_token
        else s.refreshToken) = true := by
      cases hrot : strTruthy r.refresh_token <;> simp [hrot, hrt]
    simp [getAccessToken, checkToken, ensureCredentials, ensureRefreshToken,
      refreshAccessToken, saveToStorage, updateStoragePath, hgate, hsave, hat, hrt,
      hc, hcs, htn, hexp, hresp, bne_iff_ne]

/-- Claim C2, witness: the amended statement at Scenario A (no expiry: empty
token, no exchange) and at Scenario A with expiry 500 against now = 1000 (one
exchange delivering "netTok", then a save). -/
theorem C2_amended_witness :
    (getAccessToken envA scenarioA [] = (Except.ok "", updateStoragePath scenarioA, [], []))
    ∧ ((getAccessToken envA scenarioA2 []).1 = Except.ok "netTok"
      ∧ (getAccessToken envA scenarioA2 []).2.2.2 = [Ev.refreshExchange, Ev.storageSave]) :=
  ⟨(C2_amended envA scenarioA [] (by decide) (by decide) (by decide) (by decide)
      (by decide)).1 (by decide),
   (C2_amended envA scenarioA2 [] (by decide) (by decide) (by decide) (by decide)
      (by decide)).2 500
      { access_token := "netTok", expires_in := some 3600, refresh_token := some "rot" }
      (by decide) (by decide) (by decide) rfl⟩

/-- Claim C3: whenever ensureRefreshToken must obtain a missing refresh token,
the storage load is its first side effect, before any provider interaction, for
every configuration; when the stored file for the resolved path yields a truthy
refresh token the configured tokenProvider is never invoked and the call
succeeds holding that token; the provider is consulted (exactly when configured)
only if storage yields nothing usable. -/
theorem C3_storage_before_provider (env : Env) (s : AuthState) (fs : FS)
    (hrt : strTruthy s.refreshToken = false) :
    ((ensureRefreshToken env s fs).2.2.2).head? = some Ev.storageLoad
    ∧ (∀ c : StoredCredentials, fsGet fs s.storagePath = some c →
        strTruthy c.refreshToken = true →
        Ev.providerInvoked ∉ (ensureRefreshToken env s fs).2.2.2
        ∧ (ensureRefreshToken env s fs).1 = Except.ok ()
        ∧ (ensureRefreshToken env s fs).2.1.refreshToken = c.refreshToken)
    ∧ ((fsGet fs s.storagePath = none
          ∨ ∃ c, fsGet fs s.storagePath = some c ∧ strTruthy c.refreshToken = false) →
        (Ev.providerInvoked ∈ (ensureRefreshToken env s fs).2.2.2 ↔ s.tokenProvider = true)) := by
  refine ⟨?_, ?_, ?_⟩
  · cases hload : fsGet fs s.storagePath with
    | none =>
      cases hp : s.tokenProvider <;>
        cases hpc : env.providerCode <;>
        cases hforge : env.forgeResp <;>
        simp [ensureRefreshToken, loadFromStorage, forgeRefreshToken, saveToStorage,
          updateStoragePath, hrt, hload, hp, hpc, hforge]
    | some c =>
      cases hcr : strTruthy c.refreshToken with
      | true => simp [ensureRefreshToken, loadFromStorage, updateStoragePath, hrt, hload, hcr]
      | false =>
        cases hp : s.tokenProvider <;>
          cases hpc : env.providerCode <;>
          cases hforge : env.forgeResp <;>
          simp [ensureRefreshToken, loadFromStorage, forgeRefreshToken, saveToStorage,
            updateStoragePath, hrt, hload, hcr, hp, hpc, hforge]
  · intro c hload hcr
    simp [ensureRefreshToken, loadFromStorage, updateStoragePath, hrt, hload, hcr]
  · intro hnone
    rcases hnone with hload | ⟨c, hload, hcr⟩ <;>
      cases hp : s.tokenProvider <;>
      cases hpc : env.providerCode <;>
      cases hforge : env.forgeResp <;>
      simp [ensureRefreshToken, loadFromStorage, forgeRefreshToken, saveToStorage,
        updateStoragePath, hrt, hload, hp, hpc, hforge] <;>
      simp [hcr]

/-- Scenario B: only tenant and client configured, a tokenProvider also present,
and a previously stored file for tokens.t1.c1.json holding refresh token
"stored". -/
def scenarioB : AuthState :=
  { initialState with
    tokenProvider := true
    clientId := "c1"
    tenantId := "t1"
    clientSecret := "s1"
    storagePath := "tokens.t1.c1.json" }

def storedRecB : StoredCredentials :=
  { refreshToken := some "stored", accessToken := "oldAcc",
    expiresAt := some (JsNum.num 99), clientId := "c1", tenantId := "t1" }

/-- Claim C3, witness: with the Scenario B stored file the provider is never
invoked and the stored token is adopted; with empty storage the configured
provider is consulted; the load is always the first side effect. -/
theorem C3_witness :
    ((ensureRefreshToken envA scenarioB [("tokens.t1.c1.json", storedRecB)]).2.2.2).head?
        = some Ev.storageLoad
    ∧ (Ev.providerInvoked
        ∉ (ensureRefreshToken envA scenarioB [("tokens.t1.c1.json", storedRecB)]).2.2.2
      ∧ (ensureRefreshToken envA scenarioB [("tokens.t1.c1.json", storedRecB)]).1
          = Except.ok ()
      ∧ (ensureRefreshToken envA scenarioB [("tokens.t1.c1.json", storedRecB)]).2.1.refreshToken
          = some "stored")
    ∧ (Ev.providerInvoked ∈ (ensureRefreshToken envA scenarioB []).2.2.2
        ↔ scenarioB.tokenProvider = true) :=
  ⟨(C3_storage_before_provider envA scenarioB [("tokens.t1.c1.json", storedRecB)]
      (by decide)).1,
   (C3_storage_before_provider envA scenarioB [("tokens.t1.c1.json", storedRecB)]
      (by decide)).2.1 storedRecB (by decide) (by decide),
   (C3_storage_before_provider envA scenarioB [] (by decide)).2.2 (Or.inl (by decide))⟩

/-- Claim C4: an operation that fails once with HTTP 401 while no retry is in
progress, in an environment where the recovery refresh succeeds, is re-executed
exactly once: withRetry returns the second invocation's outcome (its value when
it succeeds, its raw failure otherwise), the operation is invoked exactly twice,
and the retry guard is clear afterwards regardless of the retry's outcome. -/
theorem C4_retry_once {α : Type} (env : Env) (s : AuthState) (fs : FS)
    (op : Nat → Except JsError α) (e : JsError) (r : TokenResponse)
    (hguard : s.isRetrying = false) (h0 : op 0 = Except.error e)
    (h401 : is401 e = true) (hrt : strTruthy s.refreshToken = true)
    (hresp : env.refreshResp = some r) :
    (withRetry env s fs op).1 = op 1
    ∧ (withRetry env s fs op).2.2.2 = 2
    ∧ (withRetry env s fs op).2.1.isRetrying = false := by
  simp [withRetry, invalidateAndRefresh, refreshAccessToken, h0, h401, hguard, hrt,
    hresp]

/-- The Scenario C operation: one 401 failure, then success. -/
def opC : Nat → Except JsError String := fun i =>
  if i = 0 then Except.error (JsError.axon (some 401) none) else Except.ok "second"

/-- Claim C4, witness: the Scenario C operation against the Scenario A instance
and an environment whose refresh succeeds — the call returns the retry's value,
the operation ran twice, and the guard is clear. -/
theorem C4_retry_once_witness :
    (withRetry envA scenarioA [] opC).1 = opC 1
    ∧ (withRetry envA scenarioA [] opC).2.2.2 = 2
    ∧ (withRetry envA scenarioA [] opC).2.1.isRetrying = false :=
  C4_retry_once envA scenarioA [] opC (JsError.axon (some 401) none)
    { access_token := "netTok", expires_in := some 3600, refresh_token := some "rot" }
    (by decide) (by decide) (by decide) (by decide) rfl

/-- The operation of the C5 counterexample: a 401, then a 404 AxonError. -/
def opC5 : Nat → Except JsError String := fun i =>
  if i = 0 then Except.error (JsError.axon (some 401) none)
  else Except.error (JsError.axon (some 404) none)

/-- Claim C5, counterexample: when the re-executed operation fails with a 404
after a successful 401 recovery, withRetry propagates the raw AxonError — not
the normalized resource-not-found Error that enhanceError produces for 404 —
so the failure of the single re-executed operation does not pass through the
normalization step. -/
theorem C5_counterexample :
    (withRetry envA scenarioA [] opC5).1
        = Except.error (JsError.axon (some 404) none)
    ∧ JsError.axon (some 404) none ≠ enhanceError (JsError.axon (some 404) none)
    ∧ enhanceError (JsError.axon (some 404) none) = JsError.err (notFoundMsg none) := by
  decide

/-- Claim C5, amended: failures that withRetry rejects without performing a
retry — any non-401 failure and a 401 arriving while a retry is in progress —
pass through enhanceError, which maps 401 to the authentication-failure message,
403 to permission denied, 404 to resource not found, 409 to conflict, a truthy
status of at least 500 to an upstream server error, and returns anything else
as is; the failure of the single re-executed operation after recovery, however,
propagates raw, without normalization. -/
theorem C5_amended {α : Type} (env : Env) (s : AuthState) (fs : FS)
    (op : Nat → Except JsError α) :
    (∀ e, op 0 = Except.error e → (is401 e = false ∨ s.isRetrying = true) →
      (withRetry env s fs op).1 = Except.error (enhanceError e))
    ∧ (∀ e e2 r, op 0 = Except.error e → is401 e = true → s.isRetrying = false →
        strTruthy s.refreshToken = true → env.refreshResp = some r →
        op 1 = Except.error e2 →
        (withRetry env s fs op).1 = Except.error e2)
    ∧ (∀ d, enhanceError (JsError.axon (some 401) d) = JsError.err authFailedMsg
        ∧ enhanceError (JsError.axon (some 403) d) = JsError.err (permissionMsg d)
        ∧ enhanceError (JsError.axon (some 404) d) = JsError.err (notFoundMsg d)
        ∧ enhanceError (JsError.axon (some 409) d) = JsError.err (conflictMsg d)
        ∧ (∀ n, 500 ≤ n →
            enhanceError (JsError.axon (some n) d) = JsError.err (serverErrorMsg n d))
        ∧ (∀ n, n ≠ 401 → n ≠ 403 → n ≠ 404 → n ≠ 409 → n < 500 →
            enhanceError (JsError.axon (some n) d) = JsError.axon (some n) d)
        ∧ (∀ m, enhanceError (JsError.err m) = JsError.err m)) := by
  refine ⟨?_, ?_, ?_⟩
  · intro e h0 hng
    rcases hng with h | h <;> simp [withRetry, h0, h]
  · intro e e2 r h0 h401 hguard hrt hresp h1
    simp [withRetry, invalidateAndRefresh, refreshAccessToken, h0, h401, hguard, hrt,
      hresp, h1]
  · intro d
    refine ⟨by simp [enhanceError], by simp [enhanceError], by simp [enhanceError],
      by simp [enhanceError], ?_, ?_, fun m => rfl⟩
    · intro n h5
      have h1 : n ≠ 401 := by omega
      have h4 : n ≠ 404 := by omega
      have h9 : n ≠ 409 := by omega
      have h3 : n ≠ 403 := by omega
      have h0 : n ≠ 0 := by omega
      simp [enhanceError, statusTruthy, statusGe500, h1, h4, h9, h3, h0, h5]
    · intro n h1 h3 h4 h9 h5
      have h5n : ¬ (500 ≤ n) := by omega
      simp [enhanceError, statusTruthy, statusGe500, h1, h4, h9, h3, h5n]

/-- Claim C5, witness: the amended statement at concrete inputs — a non-retried
400 failure is enhanced (a 400 AxonError passes through unchanged), the
re-executed operation failure from the C5 operation propagates raw, and the
mapping table at a sample message. -/
theorem C5_amended_witness :
    ((withRetry envA scenarioA []
        (fun _ => (Except.error (JsError.axon (some 400) none) : Except JsError String))).1
      = Except.error (enhanceError (JsError.axon (some 400) none)))
    ∧ ((withRetry envA scenarioA [] opC5).1 = Except.error (JsError.axon (some 404) none))
    ∧ (enhanceError (JsError.axon (some 401) (some "msg")) = JsError.err authFailedMsg) :=
  ⟨(C5_amended envA scenarioA [] _).1 (JsError.axon (some 400) none) rfl
      (Or.inl (by decide)),
   (C5_amended envA scenarioA [] opC5).2.1 (JsError.axon (some 401) none)
      (JsError.axon (some 404) none)
      { access_token := "netTok", expires_in := some 3600, refresh_token := some "rot" }
      (by decide) (by decide) (by decide) (by decide) rfl (by decide),
   ((C5_amended envA scenarioA []
      (fun _ => (Except.ok "x" : Except JsError String))).2.2 (some "msg")).1⟩

/-- Claim C6: saving an instance state holding a non-empty refresh token (and an
expiry that is a plain timestamp or absent) writes exactly one record, and a
load on the same storage path reads back identical refreshToken, accessToken,
expiresAt, clientId and tenantId; the serialized record never contains a
clientSecret key. -/
theorem C6_roundtrip (s : AuthState) (fs : FS)
    (hat : s.isAccessTokenOnly = false) (hrt : strTruthy s.refreshToken = true)
    (hexp : s.expiredAt = none ∨ ∃ k, s.expiredAt = some (JsNum.num k)) :
    (saveToStorage s fs).2 = [Ev.storageSave]
    ∧ (∀ s2 : AuthState, s2.storagePath = s.storagePath →
        (loadFromStorage s2 (saveToStorage s fs).1).1 = true
        ∧ (loadFromStorage s2 (saveToStorage s fs).1).2.1.refreshToken = s.refreshToken
        ∧ (loadFromStorage s2 (saveToStorage s fs).1).2.1.accessToken = s.accessToken
        ∧ (loadFromStorage s2 (saveToStorage s fs).1).2.1.expiredAt = s.expiredAt
        ∧ (loadFromStorage s2 (saveToStorage s fs).1).2.1.clientId = s.clientId
        ∧ (loadFromStorage s2 (saveToStorage s fs).1).2.1.tenantId = s.tenantId)
    ∧ (∀ c : StoredCredentials, "clientSecret" ∉ storedJsonKeys c) := by
  have hser : serializeExpiresAt s.expiredAt = s.expiredAt := by
    rcases hexp with h | ⟨k, h⟩ <;> simp [serializeExpiresAt, h]
  refine ⟨?_, ?_, ?_⟩
  · simp [saveToStorage, hat, hrt]
  · intro s2 hpath
    have hget : fsGet (saveToStorage s fs).1 s2.storagePath
        = some { credentialsOf s with expiresAt := serializeExpiresAt s.expiredAt } := by
      simp [saveToStorage, hat, hrt, hpath, fsGet_fsWrite_self]
    simp [loadFromStorage, hget, updateStoragePath, credentialsOf, hser]
  · intro c
    rcases c with ⟨crt, cat, cexp, cid, ctid⟩
    cases crt <;> cases cexp <;> simp [storedJsonKeys]

/-- Claim C6, witness: the round trip evaluated on the Scenario A instance with
a concrete expiry and a nonempty prior directory. -/
theorem C6_roundtrip_witness :
    ((saveToStorage scenarioA2 [("other.json", storedRecB)]).2 = [Ev.storageSave])
    ∧ ((loadFromStorage scenarioA2
          (saveToStorage scenarioA2 [("other.json", storedRecB)]).1).1 = true
      ∧ (loadFromStorage scenarioA2
          (saveToStorage scenarioA2 [("other.json", storedRecB)]).1).2.1.refreshToken
          = scenarioA2.refreshToken
      ∧ (loadFromStorage scenarioA2
          (saveToStorage scenarioA2 [("other.json", storedRecB)]).1).2.1.accessToken
          = scenarioA2.accessToken
      ∧ (loadFromStorage scenarioA2
          (saveToStorage scenarioA2 [("other.json", storedRecB)]).1).2.1.expiredAt
          = scenarioA2.expiredAt
      ∧ (loadFromStorage scenarioA2
          (saveToStorage scenarioA2 [("other.json", storedRecB)]).1).2.1.clientId
          = scenarioA2.clientId
      ∧ (loadFromStorage scenarioA2
          (saveToStorage scenarioA2 [("other.json", storedRecB)]).1).2.1.tenantId
          = scenarioA2.tenantId)
    ∧ ("clientSecret" ∉ storedJsonKeys (credentialsOf scenarioA2)) :=
  ⟨(C6_roundtrip scenarioA2 [("other.json", storedRecB)] (by decide) (by decide)
      (Or.inr ⟨500, by decide⟩)).1,
   (C6_roundtrip scenarioA2 [("other.json", storedRecB)] (by decide) (by decide)
      (Or.inr ⟨500, by decide⟩)).2.1 scenarioA2 rfl,
   (C6_roundtrip scenarioA2 [("other.json", storedRecB)] (by decide) (by decide)
      (Or.inr ⟨500, by decide⟩)).2.2 (credentialsOf scenarioA2)⟩

/-- Claim C7: in access-token-only mode getAccessToken returns the held token
with no side effects at all — no network refresh — for every value of the
expiry; and handleApiError maps a 401 to the access-token-only remediation
error, rethrowing anything else unchanged (no refresh-token exchange is
attempted on either path). -/
theorem C7_access_token_only (env : Env) (s : AuthState) (fs : FS) (e : JsError)
    (hat : s.isAccessTokenOnly = true) :
    getAccessToken env s fs = (Except.ok s.accessToken, s, fs, [])
    ∧ (is401 e = true → handleApiError s e = JsError.err accessTokenOnlyMsg)
    ∧ (is401 e = false → handleApiError s e = e) := by
  refine ⟨by simp [getAccessToken, checkToken, hat], ?_, ?_⟩ <;>
    intro h <;> simp [handleApiError, hat, h]

/-- An access-token-only instance whose expiry is long past. -/
def lightState : AuthState :=
  { initialState with
    accessToken := "tok"
    isAccessTokenOnly := true
    expiredAt := some (JsNum.num 1) }

/-- Claim C7, witness: an access-token-only instance with an arbitrarily old
expiry returns its token without any event, and a 401 surfaces the remediation
error while a 404 is rethrown. -/
theorem C7_access_token_only_witness :
    getAccessToken envA lightState [] = (Except.ok "tok", lightState, [], [])
    ∧ (handleApiError lightState (JsError.axon (some 401) none)
        = JsError.err accessTokenOnlyMsg)
    ∧ (handleApiError lightState (JsError.axon (some 404) none)
        = JsError.axon (some 404) none) :=
  ⟨(C7_access_token_only envA lightState [] (JsError.axon (some 401) none) rfl).1,
   (C7_access_token_only envA lightState [] (JsError.axon (some 401) none) rfl).2.1
      (by decide),
   (C7_access_token_only envA lightState [] (JsError.axon (some 404) none) rfl).2.2
      (by decide)⟩

/-- Claim C8: with both identifiers truthy, clearStoredCredentials deletes
exactly the file tokens.tenantId.clientId.json and leaves every other file
unchanged; when that file is already absent the operation returns the directory
unchanged (the ENOENT from unlink is swallowed, nothing is raised); with either
identifier missing it deletes exactly the files matching the token-file
pattern. -/
theorem C8_clear (tid cid : Option String) (dir : FS) (f : String) :
    ((strTruthy tid = true ∧ strTruthy cid = true) →
      fsGet (clearStoredCredentials tid cid dir) f
        = if f = tokenFileName (tid.getD "") (cid.getD "") then none else fsGet dir f)
    ∧ ((strTruthy tid = true ∧ strTruthy cid = true) →
      fsGet dir (tokenFileName (tid.getD "") (cid.getD "")) = none →
      clearStoredCredentials tid cid dir = dir)
    ∧ (¬(strTruthy tid = true ∧ strTruthy cid = true) →
      fsGet (clearStoredCredentials tid cid dir) f
        = if isTokenFile f then none else fsGet dir f) := by
  refine ⟨?_, ?_, ?_⟩
  · rintro ⟨ht, hc⟩
    by_cases hpresent : (dir.find? (fun kv => kv.1 == tokenFileName (tid.getD "")
        (cid.getD ""))).isSome
    · have hf := fsGet_filter (fun x => x != tokenFileName (tid.getD "") (cid.getD ""))
        dir f
      simp [clearStoredCredentials, unlink, ht, hc, hpresent]
      rw [hf]
      by_cases he : f = tokenFileName (tid.getD "") (cid.getD "") <;> simp [he]
    · have h2 : dir.find? (fun kv => kv.1 == tokenFileName (tid.getD "") (cid.getD ""))
          = none := by
        cases hfind : dir.find? (fun kv => kv.1 == tokenFileName (tid.getD "")
            (cid.getD "")) with
        | none => rfl
        | some v => rw [hfind] at hpresent; simp at hpresent
      have hnone : fsGet dir (tokenFileName (tid.getD "") (cid.getD "")) = none := by
        simp [fsGet, h2]
      by_cases he : f = tokenFileName (tid.getD "") (cid.getD "") <;>
        simp [clearStoredCredentials, unlink, ht, hc, hpresent, he, hnone]
  · rintro ⟨ht, hc⟩ hnone
    have h2 : dir.find? (fun kv => kv.1 == tokenFileName (tid.getD "") (cid.getD ""))
        = none := by
      cases hfind : dir.find? (fun kv => kv.1 == tokenFileName (tid.getD "")
          (cid.getD "")) with
      | none => rfl
      | some v => simp [fsGet, hfind] at hnone
    simp [clearStoredCredentials, unlink, ht, hc, h2]
  · intro hmiss
    have hcond : (strTruthy tid && strTruthy cid) = false := by
      cases htv : strTruthy tid <;> cases hcv : strTruthy cid <;> simp_all
    have hf := fsGet_filter (fun x => !(isTokenFile x)) dir f
    simp [clearStoredCredentials, hcond]
    rw [hf]
    cases hft : isTokenFile f <;> simp [hft]

/-- Claim C8, witness: Scenario E — clearing ("t1","c1") on a directory with
three files removes only tokens.t1.c1.json; clearing again is a no-op without
raising; clearing with the client identifier missing removes every token file
but keeps other.txt. -/
theorem C8_clear_witness :
    (fsGet (clearStoredCredentials (some "t1") (some "c1")
        [("tokens.t1.c1.json", storedRecB), ("tokens.t2.c2.json", storedRecB),
         ("other.txt", storedRecB)]) "tokens.t2.c2.json"
      = fsGet [("tokens.t1.c1.json", storedRecB), ("tokens.t2.c2.json", storedRecB),
         ("other.txt", storedRecB)] "tokens.t2.c2.json")
    ∧ (fsGet (clearStoredCredentials (some "t1") (some "c1")
        [("tokens.t1.c1.json", storedRecB), ("tokens.t2.c2.json", storedRecB),
         ("other.txt", storedRecB)]) "tokens.t1.c1.json" = none)
    ∧ (clearStoredCredentials (some "t1") (some "c1")
        [("tokens.t2.c2.json", storedRecB), ("other.txt", storedRecB)]
      = [("tokens.t2.c2.json", storedRecB), ("other.txt", storedRecB)])
    ∧ (fsGet (clearStoredCredentials (some "t1") none
        [("tokens.t2.c2.json", storedRecB), ("other.txt", storedRecB)])
        "tokens.t2.c2.json" = none)
    ∧ (fsGet (clearStoredCredentials (some "t1") none
        [("tokens.t2.c2.json", storedRecB), ("other.txt", storedRecB)]) "other.txt"
      = fsGet [("tokens.t2.c2.json", storedRecB), ("other.txt", storedRecB)] "other.txt") := by
  refine ⟨?_, ?_, ?_, ?_, ?_⟩
  · have h := (C8_clear (some "t1") (some "c1")
      [("tokens.t1.c1.json", storedRecB), ("tokens.t2.c2.json", storedRecB),
       ("other.txt", storedRecB)] "tokens.t2.c2.json").1 ⟨by decide, by decide⟩
    rw [h]
    decide
  · have h := (C8_clear (some "t1") (some "c1")
      [("tokens.t1.c1.json", storedRecB), ("tokens.t2.c2.json", storedRecB),
       ("other.txt", storedRecB)] "tokens.t1.c1.json").1 ⟨by decide, by decide⟩
    rw [h]
    decide
  · exact (C8_clear (some "t1") (some "c1")
      [("tokens.t2.c2.json", storedRecB), ("other.txt", storedRecB)] "x").2.1
      ⟨by decide, by decide⟩ (by decide)
  · have h := (C8_clear (some "t1") none
      [("tokens.t2.c2.json", storedRecB), ("other.txt", storedRecB)]
      "tokens.t2.c2.json").2.2 (by decide)
    rw [h]
    decide
  · have h := (C8_clear (some "t1") none
      [("tokens.t2.c2.json", storedRecB), ("other.txt", storedRecB)] "other.txt").2.2
      (by decide)
    rw [h]
    decide

/-- Claim C9: recovery after a 401 is not atomic — with the guard clear, the
access token is emptied and the expiry set to 0 before any recovery attempt, so
when the refresh path is unavailable or fails and the provider path is
unavailable or fails, withRetry propagates an error with the instance left in
that cleared state (the previous access token and expiry are not restored), the
operation not re-executed, and the guard clear again. -/
theorem C9_cleared_state {α : Type} (env : Env) (s : AuthState) (fs : FS)
    (op : Nat → Except JsError α) (e : JsError)
    (hguard : s.isRetrying = false) (h0 : op 0 = Except.error e) (h401 : is401 e = true)
    (hre : strTruthy s.refreshToken = false ∨ env.refreshResp = none)
    (hpr : s.tokenProvider = false ∨ (∃ pe, env.providerCode = Except.error pe)
        ∨ env.forgeResp = none) :
    (∃ e2, (withRetry env s fs op).1 = Except.error e2)
    ∧ (withRetry env s fs op).2.1.accessToken = ""
    ∧ (withRetry env s fs op).2.1.expiredAt = some (JsNum.num 0)
    ∧ (withRetry env s fs op).2.1.isRetrying = false
    ∧ (withRetry env s fs op).2.2.2 = 1 := by
  rcases hre with hre | hre <;>
    rcases hpr with hpr | ⟨pe, hpr⟩ | hpr <;>
    cases hrt : strTruthy s.refreshToken <;>
    cases hp : s.tokenProvider <;>
    cases hpc : env.providerCode <;>
    cases hrr : env.refreshResp <;>
    cases hforge : env.forgeResp <;>
    simp_all [withRetry, invalidateAndRefresh, invalidateFallback, refreshAccessToken,
      forgeRefreshToken, saveToStorage, h0, h401, hguard]

/-- Claim C9, witness: a 401 against an instance with no renewal material — the
call rejects, leaving the access token empty and the expiry 0 (the previous
"tok" and expiry 1 are gone). -/
theorem C9_cleared_state_witness :
    (∃ e2, (withRetry envA
        { lightState with isAccessTokenOnly := false, refreshToken := some "" } []
        opC5).1 = Except.error e2)
    ∧ (withRetry envA
        { lightState with isAccessTokenOnly := false, refreshToken := some "" } []
        opC5).2.1.accessToken = ""
    ∧ (withRetry envA
        { lightState with isAccessTokenOnly := false, refreshToken := some "" } []
        opC5).2.1.expiredAt = some (JsNum.num 0)
    ∧ (withRetry envA
        { lightState with isAccessTokenOnly := false, refreshToken := some "" } []
        opC5).2.1.isRetrying = false
    ∧ (withRetry envA
        { lightState with isAccessTokenOnly := false, refreshToken := some "" } []
        opC5).2.2.2 = 1 :=
  C9_cleared_state envA
    { lightState with isAccessTokenOnly := false, refreshToken := some "" } [] opC5
    (JsError.axon (some 401) none) (by decide) (by decide) (by decide)
    (Or.inl (by decide)) (Or.inl (by decide))

/-- Claim C10: on a 200 response the authorization-code exchange assigns expiry
and refresh token unconditionally — a response without expires_in stores the
NaN of Date.now() + undefined * 1000 and a response without refresh_token
leaves the held refresh token undefined; the expiry gate of checkToken never
fires on a NaN expiry (the token is treated as non-expiring and checkToken
performs no refresh), whereas the refresh exchange updates expiry and refresh
token only when truthy in its response. -/
theorem C10_forge_unconditional (env : Env) (s : AuthState) (fs : FS)
    (r : TokenResponse) (code : String) (hp : s.tokenProvider = true)
    (hpc : env.providerCode = Except.ok code) (hforge : env.forgeResp = some r) :
    ((forgeRefreshToken env s).1 = Except.ok { s with
        accessToken := r.access_token
        expiredAt := some (match r.expires_in with
          | some e => JsNum.num (env.now + e * 1000)
          | none => JsNum.nan)
        refreshToken := r.refresh_token })
    ∧ (∀ now : Int, expiryGate now (some JsNum.nan) = false)
    ∧ (∀ s2 : AuthState, s2.isAccessTokenOnly = false → s2.clientId ≠ "" →
        s2.clientSecret ≠ "" → s2.tenantId ≠ "" → strTruthy s2.refreshToken = true →
        s2.expiredAt = some JsNum.nan →
        checkToken env s2 fs = (Except.ok (), updateStoragePath s2, fs, []))
    ∧ (∀ (env2 : Env) (s3 : AuthState) (r2 : TokenResponse),
        env2.refreshResp = some r2 →
        ∃ st, (refreshAccessToken env2 s3).1 = Except.ok st
          ∧ (intTruthy r2.expires_in = false → st.expiredAt = s3.expiredAt)
          ∧ (strTruthy r2.refresh_token = false → st.refreshToken = s3.refreshToken)) := by
  refine ⟨?_, fun now => rfl, ?_, ?_⟩
  · simp [forgeRefreshToken, hp, hpc, hforge]
  · intro s2 hat hc hcs htn hrt hexp
    simp [checkToken, ensureCredentials, ensureRefreshToken, updateStoragePath,
      expiryGate, hat, hc, hcs, htn, hrt, hexp, bne_iff_ne]
  · intro env2 s3 r2 hresp
    refine ⟨{ s3 with
        accessToken := r2.access_token
        expiredAt := if intTruthy r2.expires_in then
            some (JsNum.num (env2.now + (r2.expires_in.getD 0) * 1000))
          else s3.expiredAt
        refreshToken := if strTruthy r2.refresh_token then r2.refresh_token
          else s3.refreshToken },
      by simp [refreshAccessToken, hresp], ?_, ?_⟩ <;>
      intro h <;> simp [h]

/-- A 200 forge response carrying neither expires_in nor refresh_token. -/
def bareResp : TokenResponse :=
  { access_token := "bareAcc", expires_in := none, refresh_token := none }

/-- An environment whose forge exchange returns the bare response. -/
def envBare : Env :=
  { now := 1000, refreshResp := some bareResp, providerCode := Except.ok "code",
    forgeResp := some bareResp }

/-- Claim C10, witness: forging against a 200 response with neither expires_in
nor refresh_token yields a NaN expiry and an undefined refresh token; the
expiry gate never fires on NaN; checkToken with a NaN expiry for Scenario B
does nothing; a refresh exchange with the same bare response leaves expiry and
refresh token untouched. -/
theorem C10_forge_witness :
    ((forgeRefreshToken envBare scenarioB).1 = Except.ok { scenarioB with
        accessToken := "bareAcc"
        expiredAt := some JsNum.nan
        refreshToken := none })
    ∧ expiryGate 999999999 (some JsNum.nan) = false
    ∧ checkToken envBare { scenarioB with refreshToken := some "r", expiredAt := some JsNum.nan } []
        = (Except.ok (),
           updateStoragePath { scenarioB with refreshToken := some "r", expiredAt := some JsNum.nan },
           [], [])
    ∧ (∃ st, (refreshAccessToken envBare scenarioA2).1 = Except.ok st
        ∧ st.expiredAt = scenarioA2.expiredAt
        ∧ st.refreshToken = scenarioA2.refreshToken) := by
  have h := C10_forge_unconditional envBare scenarioB [] bareResp "code" (by decide)
    rfl rfl
  refine ⟨h.1, h.2.1 999999999, ?_, ?_⟩
  · exact h.2.2.1 { scenarioB with refreshToken := some "r", expiredAt := some JsNum.nan }
      (by decide) (by decide) (by decide) (by decide) (by decide) (by decide)
  · obtain ⟨st, h1, h2, h3⟩ := h.2.2.2 envBare scenarioA2 bareResp rfl
    exact ⟨st, h1, h2 (by decide), h3 (by decide)⟩

end MsGraph
